import Mathlib

/-!
Shallow embedding of `src/esp32.ino` (OTA update coordinator for ESP32).

The firmware has two periodic tasks sharing two boolean gate flags
(`is_downloading`, `is_updating`) and one staged-image file `/update.bin`
on the SD card:

* `CheckAPIForUpdates` (Fetch Agent, lines 107-163): polls an HTTP
  endpoint; on HTTP 200 or 301 it sets `is_downloading`, mounts the SD
  card, opens `/update.bin` with `FILE_WRITE` (mode "w" on ESP32, which
  truncates), streams the response body in chunks of up to 1024 bytes,
  and clears `is_downloading` on exit.
* `UpdateFirmwareFromSD` (Apply Agent, lines 61-93): returns if
  `is_downloading` is set; mounts the SD card, opens `/update.bin` for
  reading; if found, sets `is_updating`, calls `performUpdate` when the
  size is nonzero, then closes and removes the file and clears
  `is_updating`.
* `performUpdate` (lines 36-58): `Update.begin(size)`, a streamed write,
  `Update.end()`, `Update.isFinished()`, and on full success
  `ESP.restart()`, which does not return.

External collaborators (HTTP client, SD card, flash primitive) are
modelled by environment records recording the answers those calls return;
side effects are recorded as an event trace.  A run result carries the
event trace, the final shared state, and whether `ESP.restart()` was
reached (in which case the function never returns and no statement after
the restart executes).
-/

/-- Observable side effects of a run, in program order, mirroring the
calls made by `src/esp32.ino`. `log s` is a `Serial.println`/`print` of
`s`; `updateBegin n` is `Update.begin(n)`; `updateWriteStream` is
`Update.writeStream`; `updateEnd` is `Update.end()`; `espRestart` is
`ESP.restart()`; `fileWrite ch` is one `file.write(buffer, bytesRead)`
with chunk `ch`; `sdRemove` is `SD.remove("/update.bin")`; `httpGet` is
`http.GET()`; `httpEnd` is `http.end()`; `setDownloading b` /
`setUpdating b` are assignments to the gate flags. -/
inductive Ev where
  | log (s : String)
  | updateBegin (n : Nat)
  | updateWriteStream
  | updateEnd
  | espRestart
  | fileWrite (ch : List Nat)
  | fileClose
  | sdRemove
  | httpGet
  | httpEnd
  | setDownloading (b : Bool)
  | setUpdating (b : Bool)
  deriving DecidableEq, Repr

/-- Shared mutable state of the sketch: the two gate flags (lines 25-26)
and the content of `/update.bin` on the SD card (`none` when the file is
absent). -/
structure SysState where
  is_downloading : Bool
  is_updating : Bool
  sdFile : Option (List Nat)
  deriving DecidableEq, Repr

/-- Result of one run of an agent: the event trace, the shared state when
the run ends, and whether it ended in `ESP.restart()` (in which case the
function never returned and `state` is the state at the instant of the
restart call). -/
structure RunResult where
  events : List Ev
  state : SysState
  restarted : Bool
  deriving DecidableEq, Repr

/-- Answers the flash primitive and SD card give to the Apply Agent:
`mountOk` is `SD.begin(SD_CS_PIN)`, `beginOk` is `Update.begin(size)`,
`written` is the byte count returned by `Update.writeStream`, `endOk` is
`Update.end()`, `isFinished` is `Update.isFinished()`, `errCode` is
`Update.getError()`. -/
structure ApplyEnv where
  mountOk : Bool
  beginOk : Bool
  written : Nat
  endOk : Bool
  isFinished : Bool
  errCode : Nat
  deriving DecidableEq, Repr

/-- `performUpdate(updateSource, updateSize)` of lines 36-58, with the
flash primitive's answers supplied by `env`.  The returned flag records
whether `ESP.restart()` (line 48) was reached. -/
def performUpdate (env : ApplyEnv) (updateSize : Nat) : List Ev × Bool :=
  if env.beginOk then
    let wlog :=
      if env.written = updateSize then
        Ev.log ("Written : " ++ toString env.written ++ " successfully")
      else
        Ev.log ("Written only : " ++ toString env.written ++ "/" ++
          toString updateSize ++ ". Retry?")
    let pre := [Ev.updateBegin updateSize, Ev.updateWriteStream, wlog, Ev.updateEnd]
    if env.endOk then
      if env.isFinished then
        (pre ++ [Ev.log "OTA done!",
                 Ev.log "Update successfully completed. Rebooting.",
                 Ev.espRestart], true)
      else
        (pre ++ [Ev.log "OTA done!",
                 Ev.log "Update not finished? Something went wrong!"], false)
    else
      (pre ++ [Ev.log ("Error Occurred. Error #: " ++ toString env.errCode)], false)
  else
    ([Ev.log "Not enough space to begin OTA"], false)

/-- `UpdateFirmwareFromSD()` of lines 61-93 (the Apply Agent's run body).
`s.sdFile` plays the role of `/update.bin`: `SD.open` fails exactly when
it is `none`, and `binFile.size()` is the length of its content. -/
def UpdateFirmwareFromSD (env : ApplyEnv) (s : SysState) : RunResult :=
  if s.is_downloading then
    { events := [Ev.log "Still downloading new firmware."], state := s, restarted := false }
  else if env.mountOk then
    match s.sdFile with
    | none =>
      { events := [Ev.log "No update found."], state := s, restarted := false }
    | some content =>
      let s1 : SysState := { s with is_updating := true }
      let e1 := [Ev.setUpdating true, Ev.log "SD card initialized successfully."]
      let updateSize := content.length
      if 0 < updateSize then
        let p := performUpdate env updateSize
        if p.2 then
          { events := e1 ++ [Ev.log "Try to start update"] ++ p.1,
            state := s1, restarted := true }
        else
          { events := e1 ++ [Ev.log "Try to start update"] ++ p.1 ++
                      [Ev.fileClose, Ev.sdRemove, Ev.setUpdating false],
            state := { s1 with sdFile := none, is_updating := false },
            restarted := false }
      else
        { events := e1 ++ [Ev.log "Error, file is empty",
                           Ev.fileClose, Ev.sdRemove, Ev.setUpdating false],
          state := { s1 with sdFile := none, is_updating := false },
          restarted := false }
  else
    { events := [Ev.log "Failed to initialize SD card."], state := s, restarted := false }

/-- HTTP status constant `HTTP_CODE_OK`. -/
def HTTP_CODE_OK : Int := 200

/-- HTTP status constant `HTTP_CODE_MOVED_PERMANENTLY`. -/
def HTTP_CODE_MOVED_PERMANENTLY : Int := 301

/-- HTTP status constant `HTTP_CODE_ALREADY_REPORTED`. -/
def HTTP_CODE_ALREADY_REPORTED : Int := 208

/-- Answers the network and SD card give to the Fetch Agent:
`httpBeginOk` is `http.begin(client, updateURL)`, `httpCode` the result
of `http.GET()`, `body` the response body byte stream, `mountOk` is
`SD.begin(SD_CS_PIN)` (line 130), `fileOpenOk` is whether
`SD.open(fileName, FILE_WRITE)` yields a valid file. -/
structure FetchEnv where
  httpBeginOk : Bool
  httpCode : Int
  body : List Nat
  mountOk : Bool
  fileOpenOk : Bool
  deriving DecidableEq, Repr

/-- The download loop of lines 141-145: `stream->readBytes(buffer, 1024)`
returns the next at-most-1024-byte chunk of the remaining body; while the
count is positive the chunk is appended to the file.  Returns the
`fileWrite` events and the final file content, starting from content
`acc` (the file was just opened in mode "w", so callers pass `[]`). -/
def writeChunks (rem acc : List Nat) : List Ev × List Nat :=
  if h : rem = [] then
    ([], acc)
  else
    let chunk := rem.take 1024
    let r := writeChunks (rem.drop 1024) (acc ++ chunk)
    (Ev.fileWrite chunk :: r.1, r.2)
  termination_by rem.length
  decreasing_by
    have h' : 0 < rem.length := List.length_pos.mpr h
    simp [List.length_drop]
    omega

/-- `CheckAPIForUpdates()` of lines 107-163 (the Fetch Agent's run body). -/
def CheckAPIForUpdates (env : FetchEnv) (s : SysState) : RunResult :=
  if s.is_updating then
    { events := [Ev.log "Still updating."], state := s, restarted := false }
  else
    let e0 := [Ev.log "Checking for updates..."]
    if env.httpBeginOk then
      let e1 := e0 ++ [Ev.httpGet]
      if env.httpCode = HTTP_CODE_ALREADY_REPORTED then
        { events := e1 ++ [Ev.log "Firmware already up to date.", Ev.setDownloading false],
          state := { s with is_downloading := false }, restarted := false }
      else if env.httpCode = HTTP_CODE_OK ∨ env.httpCode = HTTP_CODE_MOVED_PERMANENTLY then
        let e2 := e1 ++ [Ev.setDownloading true, Ev.log "Update found!"]
        if env.mountOk then
          if env.fileOpenOk then
            let w := writeChunks env.body []
            { events := e2 ++ w.1 ++ [Ev.fileClose, Ev.log "File saved successfully.",
                                      Ev.httpEnd, Ev.setDownloading false],
              state := { s with is_downloading := false, sdFile := some w.2 },
              restarted := false }
          else
            { events := e2 ++ [Ev.log "Error creating file: /update.bin",
                               Ev.httpEnd, Ev.setDownloading false],
              state := { s with is_downloading := false }, restarted := false }
        else
          { events := e2 ++ [Ev.log "Failed to initialize SD card.", Ev.setDownloading false],
            state := { s with is_downloading := false }, restarted := false }
      else
        { events := e1 ++ [Ev.log ("Request canceled. HTTP Code : " ++ toString env.httpCode),
                           Ev.setDownloading false],
          state := { s with is_downloading := false }, restarted := false }
    else
      { events := e0 ++ [Ev.log "HTTP connection error!"], state := s, restarted := false }

/-!
Interleaved two-task model for the mutual-exclusion claim.

`setup()` (lines 165-199) pins two FreeRTOS tasks: `WiFiUpdaterLoop`
runs `CheckAPIForUpdates` and `SDUpdaterLoop` runs `UpdateFirmwareFromSD`,
concurrently and with independent periods.  To reason about
interleavings, each agent body is broken into atomic steps at statement
granularity, with a program counter per agent; the shared state is the
two gate flags and the presence of the staged file.  Only the statements
that read or write shared state, or that mark the critical sections, are
split; straight-line local work is merged into the adjacent step.
-/

/-- Program counter of the Apply Agent (`UpdateFirmwareFromSD`):
`a0` = about to check `is_downloading` (line 62); `a1` = about to call
`SD.begin` (line 67); `a2` = about to open `/update.bin` (line 72);
`a3` = about to set `is_updating = true` and test the size (lines 78-82);
`a4` = inside the flash attempt `performUpdate` (line 84, the critical
section); `a5` = about to run the cleanup (lines 89-92); `adone` = the
run returned; `rebooted` = `ESP.restart()` was reached. -/
inductive APC where
  | a0 | a1 | a2 | a3 | a4 | a5 | adone | rebooted
  deriving DecidableEq, Repr

/-- Program counter of the Fetch Agent (`CheckAPIForUpdates`):
`f0` = about to check `is_updating` (line 108); `f1` = about to run
`http.begin`/`http.GET` and branch on the status (lines 118-124);
`f2` = about to set `is_downloading = true` (line 125); `f3` = inside
the download into the staging slot (lines 130-153, the critical
section); `f4` = about to clear `is_downloading` (line 159);
`fdone` = the run returned. -/
inductive FPC where
  | f0 | f1 | f2 | f3 | f4 | fdone
  deriving DecidableEq, Repr

/-- Joint state of the two tasks and the shared variables. -/
structure ConcState where
  apc : APC
  fpc : FPC
  downloading : Bool
  updating : Bool
  staged : Bool
  deriving DecidableEq, Repr

/-- Fixed answers of the external collaborators during the interleaved
run: `applyMountOk` is the Apply Agent's `SD.begin`; `imageNonempty` is
the `updateSize > 0` test; `flashRestarts` is whether the flash attempt
ends in `ESP.restart()`; `fetchBeginOk` is `http.begin`; `fetchAvail` is
whether `http.GET()` returns 200 or 301; `fetchMountOk` and
`fetchOpenOk` are the Fetch Agent's `SD.begin` and `SD.open`. -/
structure CEnv where
  applyMountOk : Bool
  imageNonempty : Bool
  flashRestarts : Bool
  fetchBeginOk : Bool
  fetchAvail : Bool
  fetchMountOk : Bool
  fetchOpenOk : Bool
  deriving DecidableEq, Repr

/-- One atomic step of the Apply Agent (`UpdateFirmwareFromSD`). -/
def applyStepC (env : CEnv) (c : ConcState) : ConcState :=
  match c.apc with
  | APC.a0 => if c.downloading then { c with apc := APC.adone } else { c with apc := APC.a1 }
  | APC.a1 => if env.applyMountOk then { c with apc := APC.a2 } else { c with apc := APC.adone }
  | APC.a2 => if c.staged then { c with apc := APC.a3 } else { c with apc := APC.adone }
  | APC.a3 => { c with updating := true,
                       apc := if env.imageNonempty then APC.a4 else APC.a5 }
  | APC.a4 => if env.flashRestarts then { c with apc := APC.rebooted }
              else { c with apc := APC.a5 }
  | APC.a5 => { c with staged := false, updating := false, apc := APC.adone }
  | APC.adone => c
  | APC.rebooted => c

/-- One atomic step of the Fetch Agent (`CheckAPIForUpdates`). -/
def fetchStepC (env : CEnv) (c : ConcState) : ConcState :=
  match c.fpc with
  | FPC.f0 => if c.updating then { c with fpc := FPC.fdone } else { c with fpc := FPC.f1 }
  | FPC.f1 => if env.fetchBeginOk then
                (if env.fetchAvail then { c with fpc := FPC.f2 }
                 else { c with downloading := false, fpc := FPC.fdone })
              else { c with fpc := FPC.fdone }
  | FPC.f2 => { c with downloading := true, fpc := FPC.f3 }
  | FPC.f3 => if env.fetchMountOk then
                (if env.fetchOpenOk then { c with staged := true, fpc := FPC.f4 }
                 else { c with fpc := FPC.f4 })
              else { c with downloading := false, fpc := FPC.fdone }
  | FPC.f4 => { c with downloading := false, fpc := FPC.fdone }
  | FPC.fdone => c

/-- Run an interleaving: `true` schedules one Apply Agent step, `false`
one Fetch Agent step. -/
def runSched (env : CEnv) : List Bool → ConcState → ConcState
  | [], c => c
  | b :: rest, c => runSched env rest (if b then applyStepC env c else fetchStepC env c)

/-- The Apply Agent is inside its critical section (the flash attempt). -/
def applyCritical (c : ConcState) : Prop := c.apc = APC.a4

/-- The Fetch Agent is inside its critical section (the download into the
staging slot). -/
def fetchCritical (c : ConcState) : Prop := c.fpc = FPC.f3

/-- Initial joint state: both agents at the top of their run bodies,
both gates clear, a staged image present. -/
def concInit : ConcState :=
  { apc := APC.a0, fpc := FPC.f0, downloading := false, updating := false, staged := true }

instance (c : ConcState) : Decidable (applyCritical c) :=
  inferInstanceAs (Decidable (c.apc = APC.a4))

instance (c : ConcState) : Decidable (fetchCritical c) :=
  inferInstanceAs (Decidable (c.fpc = FPC.f3))

/-- Auxiliary, fuel-indexed form: the download loop writes exactly the
remaining bytes after the current file content. -/
theorem writeChunks_snd_aux :
    ∀ (n : Nat) (rem acc : List Nat), rem.length ≤ n →
      (writeChunks rem acc).2 = acc ++ rem := by
  intro n
  induction n with
  | zero =>
    intro rem acc h
    have hr : rem = [] := List.eq_nil_of_length_eq_zero (Nat.le_zero.mp h)
    subst hr
    simp [writeChunks]
  | succ n ih =>
    intro rem acc h
    rw [writeChunks]
    by_cases hr : rem = []
    · simp [hr]
    · simp only [dif_neg hr]
      have hlen : (rem.drop 1024).length ≤ n := by
        have := List.length_pos.mpr hr
        simp only [List.length_drop]
        omega
      rw [ih _ _ hlen, List.append_assoc, List.take_append_drop]

/-- The download loop appends exactly the remaining bytes to the file. -/
theorem writeChunks_snd (rem acc : List Nat) : (writeChunks rem acc).2 = acc ++ rem :=
  writeChunks_snd_aux rem.length rem acc le_rfl

/-- Auxiliary, fuel-indexed form: every write issued by the download loop
is a nonempty chunk of at most 1024 bytes. -/
theorem writeChunks_chunk_aux :
    ∀ (n : Nat) (rem acc : List Nat) (ch : List Nat), rem.length ≤ n →
      Ev.fileWrite ch ∈ (writeChunks rem acc).1 → ch ≠ [] ∧ ch.length ≤ 1024 := by
  intro n
  induction n with
  | zero =>
    intro rem acc ch h hm
    have hr : rem = [] := List.eq_nil_of_length_eq_zero (Nat.le_zero.mp h)
    subst hr
    simp [writeChunks] at hm
  | succ n ih =>
    intro rem acc ch h hm
    rw [writeChunks] at hm
    by_cases hr : rem = []
    · simp [hr] at hm
    · simp only [dif_neg hr, List.mem_cons] at hm
      rcases hm with hm | hm
      · have hch : ch = rem.take 1024 := by
          injection hm with hm
        subst hch
        have hp := List.length_pos.mpr hr
        constructor
        · intro hnil
          have hl := congrArg List.length hnil
          simp only [List.length_take, List.length_nil] at hl
          omega
        · simp only [List.length_take]
          omega
      · have hlen : (rem.drop 1024).length ≤ n := by
          have := List.length_pos.mpr hr
          simp only [List.length_drop]
          omega
        exact ih _ _ _ hlen hm

/-- A step of the Fetch Agent never changes the Apply Agent's program
counter. -/
theorem fetchStepC_apc (env : CEnv) (c : ConcState) : (fetchStepC env c).apc = c.apc := by
  obtain ⟨apc, fpc, d, u, st⟩ := c
  cases fpc <;> simp [fetchStepC] <;> split_ifs <;> rfl

/-- A step of the Apply Agent never changes the Fetch Agent's program
counter. -/
theorem applyStepC_fpc (env : CEnv) (c : ConcState) : (applyStepC env c).fpc = c.fpc := by
  obtain ⟨apc, fpc, d, u, st⟩ := c
  cases apc <;> simp [applyStepC] <;> split_ifs <;> rfl

/-- Once the Apply Agent's run has returned, its program counter stays at
`adone` under any further interleaving. -/
theorem runSched_apc_adone (env : CEnv) (sched : List Bool) (c : ConcState)
    (h : c.apc = APC.adone) : (runSched env sched c).apc = APC.adone := by
  induction sched generalizing c with
  | nil => exact h
  | cons b rest ih =>
    simp only [runSched]
    apply ih
    cases b
    · simp [fetchStepC_apc, h]
    · obtain ⟨apc, fpc, d, u, st⟩ := c
      simp only at h
      subst h
      simp [applyStepC]

/-- Once the Fetch Agent's run has returned, its program counter stays at
`fdone` under any further interleaving. -/
theorem runSched_fpc_fdone (env : CEnv) (sched : List Bool) (c : ConcState)
    (h : c.fpc = FPC.fdone) : (runSched env sched c).fpc = FPC.fdone := by
  induction sched generalizing c with
  | nil => exact h
  | cons b rest ih =>
    simp only [runSched]
    apply ih
    cases b
    · obtain ⟨apc, fpc, d, u, st⟩ := c
      simp only at h
      subst h
      simp [fetchStepC]
    · simp [applyStepC_fpc, h]

/-- Environment for the mutual-exclusion counterexample: the Apply
Agent's mount succeeds on a nonempty staged image whose flash attempt
does not restart, and the Fetch Agent's poll reports an update with a
working SD card. -/
def cexCEnv : CEnv :=
  { applyMountOk := true, imageNonempty := true, flashRestarts := false,
    fetchBeginOk := true, fetchAvail := true, fetchMountOk := true, fetchOpenOk := true }

/-- The overlapping interleaving: the Fetch Agent passes its entry check,
then the Apply Agent runs up to the flash attempt, then the Fetch Agent
resumes, sets `is_downloading` and starts its download. `true` schedules
an Apply step, `false` a Fetch step. -/
def cexSched : List Bool := [false, true, true, true, true, false, false]

/-- C1: the claim is false as stated.  Because each agent's gate check
and gate set are separate steps, there is an interleaving from the
initial state (both gates clear, an image staged) after which the Apply
Agent is inside its flash attempt while the Fetch Agent is
simultaneously inside its download into the staging slot: the Fetch
Agent reads `is_updating == false` at line 108 before the Apply Agent
sets it at line 78, and neither re-checks afterwards. -/
theorem C1_counterexample :
    applyCritical (runSched cexCEnv cexSched concInit) ∧
    fetchCritical (runSched cexCEnv cexSched concInit) := by
  decide

/-- C1 (amended): the entry-denial half of the claim holds, per agent
and independently of the other agent's state — whenever the Apply
Agent's entry check (line 62) runs while `is_downloading` is set, it
returns immediately and never reaches its critical section in any
further interleaving, and whenever the Fetch Agent's entry check
(line 108) runs while `is_updating` is set, it returns immediately and
never reaches its critical section — but mutual exclusion over all
interleavings fails, because each gate check is a separate step from
the corresponding gate set. -/
theorem C1_amended_entry_denied (env : CEnv) (c : ConcState) :
    (c.apc = APC.a0 → c.downloading = true →
      (applyStepC env c).apc = APC.adone ∧
      ∀ sched, ¬ applyCritical (runSched env sched (applyStepC env c))) ∧
    (c.fpc = FPC.f0 → c.updating = true →
      (fetchStepC env c).fpc = FPC.fdone ∧
      ∀ sched, ¬ fetchCritical (runSched env sched (fetchStepC env c))) := by
  constructor
  · intro ha hd
    have hA : (applyStepC env c).apc = APC.adone := by
      obtain ⟨apc, fpc, d, u, st⟩ := c
      simp only at ha hd
      subst ha; subst hd
      simp [applyStepC]
    refine ⟨hA, fun sched hcrit => ?_⟩
    have h2 := runSched_apc_adone env sched _ hA
    unfold applyCritical at hcrit
    rw [h2] at hcrit
    exact absurd hcrit (by decide)
  · intro hf hu
    have hF : (fetchStepC env c).fpc = FPC.fdone := by
      obtain ⟨apc, fpc, d, u, st⟩ := c
      simp only at hf hu
      subst hf; subst hu
      simp [fetchStepC]
    refine ⟨hF, fun sched hcrit => ?_⟩
    have h2 := runSched_fpc_fdone env sched _ hF
    unfold fetchCritical at hcrit
    rw [h2] at hcrit
    exact absurd hcrit (by decide)

/-- Witness for `C1_amended_entry_denied` at the two canonical denial
scenarios: the Apply Agent at its entry check while the Fetch Agent is
mid-download (`downloading` set, `updating` clear), and the Fetch Agent
at its entry check while the Apply Agent is mid-flash (`updating` set,
`downloading` clear). -/
theorem C1_amended_entry_denied_witness :
    (ConcState.apc ⟨APC.a0, FPC.f3, true, false, true⟩ = APC.a0 ∧
     ConcState.downloading ⟨APC.a0, FPC.f3, true, false, true⟩ = true ∧
     ((applyStepC cexCEnv ⟨APC.a0, FPC.f3, true, false, true⟩).apc = APC.adone ∧
       ∀ sched, ¬ applyCritical (runSched cexCEnv sched
         (applyStepC cexCEnv ⟨APC.a0, FPC.f3, true, false, true⟩)))) ∧
    (ConcState.fpc ⟨APC.a4, FPC.f0, false, true, true⟩ = FPC.f0 ∧
     ConcState.updating ⟨APC.a4, FPC.f0, false, true, true⟩ = true ∧
     ((fetchStepC cexCEnv ⟨APC.a4, FPC.f0, false, true, true⟩).fpc = FPC.fdone ∧
       ∀ sched, ¬ fetchCritical (runSched cexCEnv sched
         (fetchStepC cexCEnv ⟨APC.a4, FPC.f0, false, true, true⟩)))) :=
  ⟨⟨rfl, rfl,
    (C1_amended_entry_denied cexCEnv ⟨APC.a0, FPC.f3, true, false, true⟩).1 rfl rfl⟩,
   ⟨rfl, rfl,
    (C1_amended_entry_denied cexCEnv ⟨APC.a4, FPC.f0, false, true, true⟩).2 rfl rfl⟩⟩

/-- The Apply Agent's final `is_updating` is clear whenever it was clear
at entry and the run returned (did not end in `ESP.restart()`). -/
theorem UpdateFirmwareFromSD_updating_clear (env : ApplyEnv) (s : SysState)
    (h : s.is_updating = false)
    (hr : (UpdateFirmwareFromSD env s).restarted = false) :
    (UpdateFirmwareFromSD env s).state.is_updating = false := by
  obtain ⟨d, u, sd⟩ := s
  simp only at h
  subst h
  cases d
  · cases hm : env.mountOk
    · simp [UpdateFirmwareFromSD, hm]
    · cases sd with
      | none => simp [UpdateFirmwareFromSD, hm]
      | some content =>
        by_cases hsz : 0 < content.length
        · by_cases hp : (performUpdate env content.length).2
          · exfalso
            rw [UpdateFirmwareFromSD] at hr
            simp [hm, hsz, hp] at hr
          · simp [UpdateFirmwareFromSD, hm, hsz, hp]
        · simp [UpdateFirmwareFromSD, hm, hsz]
  · simp [UpdateFirmwareFromSD]

/-- The Fetch Agent's final `is_downloading` is clear whenever it was
clear at entry. -/
theorem CheckAPIForUpdates_downloading_clear (env : FetchEnv) (s : SysState)
    (h : s.is_downloading = false) :
    (CheckAPIForUpdates env s).state.is_downloading = false := by
  obtain ⟨d, u, sd⟩ := s
  simp only at h
  subst h
  cases u
  · rw [CheckAPIForUpdates]
    split_ifs <;> rfl
  · simp [CheckAPIForUpdates]

/-- C2: on every exit path on which an agent's run returns — entry
denied, mount failure, file-open failure, zero-size image, partial
write, finalize failure, unexpected HTTP status, or success — the
agent's own gate flag is false after the run, given it was false at
entry (each flag is written by its own single task only, so it is false
whenever that task is outside a run). -/
theorem C2_gate_clear_on_return (aenv : ApplyEnv) (fenv : FetchEnv) (sa sf : SysState)
    (ha : sa.is_updating = false)
    (hra : (UpdateFirmwareFromSD aenv sa).restarted = false)
    (hf : sf.is_downloading = false) :
    (UpdateFirmwareFromSD aenv sa).state.is_updating = false ∧
    (CheckAPIForUpdates fenv sf).state.is_downloading = false :=
  ⟨UpdateFirmwareFromSD_updating_clear aenv sa ha hra,
   CheckAPIForUpdates_downloading_clear fenv sf hf⟩

/-- Witness for `C2_gate_clear_on_return`: a run whose flash finalize
fails (so the Apply run returns) and a poll that reports HTTP 500. -/
theorem C2_gate_clear_on_return_witness :
    (SysState.is_updating ⟨false, false, some [1, 2]⟩ = false) ∧
    ((UpdateFirmwareFromSD ⟨true, true, 2, false, false, 7⟩ ⟨false, false, some [1, 2]⟩).restarted = false) ∧
    (SysState.is_downloading ⟨false, false, none⟩ = false) ∧
    ((UpdateFirmwareFromSD ⟨true, true, 2, false, false, 7⟩ ⟨false, false, some [1, 2]⟩).state.is_updating = false ∧
     (CheckAPIForUpdates ⟨true, 500, [], true, true⟩ ⟨false, false, none⟩).state.is_downloading = false) :=
  ⟨rfl, by decide, rfl,
   C2_gate_clear_on_return ⟨true, true, 2, false, false, 7⟩ ⟨true, 500, [], true, true⟩
     ⟨false, false, some [1, 2]⟩ ⟨false, false, none⟩ rfl (by decide) rfl⟩

/-- C3: evaluation at the failing input.  On a fully successful flash
(`Update.begin`, `Update.end` and `Update.isFinished` all succeed on a
3-byte staged image) the Apply Agent reaches `ESP.restart()` inside
`performUpdate` before `binFile.close()` and `SD.remove("/update.bin")`
at lines 89-90 ever execute, so the run ends with the staged image still
present and no `SD.remove` in its trace — the deletion is not
unconditional: it is skipped exactly on the success path. -/
theorem C3_success_path_skips_delete :
    (UpdateFirmwareFromSD ⟨true, true, 3, true, true, 0⟩
        ⟨false, false, some [1, 2, 3]⟩).restarted = true ∧
    (UpdateFirmwareFromSD ⟨true, true, 3, true, true, 0⟩
        ⟨false, false, some [1, 2, 3]⟩).state.sdFile = some [1, 2, 3] ∧
    Ev.sdRemove ∉ (UpdateFirmwareFromSD ⟨true, true, 3, true, true, 0⟩
        ⟨false, false, some [1, 2, 3]⟩).events := by
  refine ⟨by decide, by decide, by decide⟩

/-- C4: the restart (`ESP.restart()`, line 48) is triggered if and only
if the finalize step `Update.end()` was reached and reported success and
the distinct `Update.isFinished()` signal is true; in particular a
successful finalize with an incomplete verification signal does not
restart. -/
theorem C4_restart_iff_finalized_and_finished (env : ApplyEnv) (updateSize : Nat) :
    ((performUpdate env updateSize).2 = true ↔
      (Ev.updateEnd ∈ (performUpdate env updateSize).1 ∧
       env.endOk = true ∧ env.isFinished = true)) ∧
    ((performUpdate env updateSize).2 = true ↔
      Ev.espRestart ∈ (performUpdate env updateSize).1) := by
  cases hb : env.beginOk <;> cases he : env.endOk <;> cases hf : env.isFinished <;>
    by_cases hw : env.written = updateSize <;>
      simp [performUpdate, hb, he, hf, hw]

/-- C5: when the flash primitive reports writing fewer bytes than the
declared size, `performUpdate` logs the "Written only" warning (line 42)
but still reaches `Update.end()` (line 44) — the mismatch does not abort
the finalize step. -/
theorem C5_short_write_still_finalizes (env : ApplyEnv) (updateSize : Nat)
    (hb : env.beginOk = true) (hw : env.written < updateSize) :
    Ev.log ("Written only : " ++ toString env.written ++ "/" ++
        toString updateSize ++ ". Retry?") ∈ (performUpdate env updateSize).1 ∧
    Ev.updateEnd ∈ (performUpdate env updateSize).1 := by
  have hne : ¬ env.written = updateSize := Nat.ne_of_lt hw
  cases he : env.endOk <;> cases hf : env.isFinished <;>
    simp [performUpdate, hb, he, hf, hne]

/-- Witness for `C5_short_write_still_finalizes`: the flash primitive
reports 2 of 3 declared bytes written. -/
theorem C5_short_write_still_finalizes_witness :
    (ApplyEnv.beginOk ⟨true, true, 2, true, true, 0⟩ = true) ∧ 2 < 3 ∧
    (Ev.log ("Written only : " ++ toString (ApplyEnv.written ⟨true, true, 2, true, true, 0⟩) ++ "/" ++
        toString 3 ++ ". Retry?") ∈ (performUpdate ⟨true, true, 2, true, true, 0⟩ 3).1 ∧
     Ev.updateEnd ∈ (performUpdate ⟨true, true, 2, true, true, 0⟩ 3).1) :=
  ⟨rfl, by decide,
   C5_short_write_still_finalizes ⟨true, true, 2, true, true, 0⟩ 3 rfl (by decide)⟩

/-- C6: on a zero-size staged image the Apply Agent takes the
"Error, file is empty" branch (line 86): `performUpdate` is never
entered, so `Update.begin` is never called and no restart occurs, and
the cleanup at lines 89-92 still deletes the staged file. -/
theorem C6_zero_size_aborts (env : ApplyEnv) (s : SysState)
    (hd : s.is_downloading = false) (hm : env.mountOk = true)
    (hf : s.sdFile = some []) :
    (UpdateFirmwareFromSD env s).restarted = false ∧
    (∀ n, Ev.updateBegin n ∉ (UpdateFirmwareFromSD env s).events) ∧
    Ev.espRestart ∉ (UpdateFirmwareFromSD env s).events ∧
    (UpdateFirmwareFromSD env s).state.sdFile = none ∧
    Ev.log "Error, file is empty" ∈ (UpdateFirmwareFromSD env s).events := by
  obtain ⟨d, u, sd⟩ := s
  simp only at hd hf
  subst hd; subst hf
  simp [UpdateFirmwareFromSD, hm]

/-- Witness for `C6_zero_size_aborts`: an empty staged image with a
healthy SD card. -/
theorem C6_zero_size_aborts_witness :
    (SysState.is_downloading ⟨false, false, some []⟩ = false) ∧
    (ApplyEnv.mountOk ⟨true, true, 0, true, true, 0⟩ = true) ∧
    (SysState.sdFile ⟨false, false, some []⟩ = some []) ∧
    ((UpdateFirmwareFromSD ⟨true, true, 0, true, true, 0⟩ ⟨false, false, some []⟩).restarted = false ∧
     (∀ n, Ev.updateBegin n ∉ (UpdateFirmwareFromSD ⟨true, true, 0, true, true, 0⟩ ⟨false, false, some []⟩).events) ∧
     Ev.espRestart ∉ (UpdateFirmwareFromSD ⟨true, true, 0, true, true, 0⟩ ⟨false, false, some []⟩).events ∧
     (UpdateFirmwareFromSD ⟨true, true, 0, true, true, 0⟩ ⟨false, false, some []⟩).state.sdFile = none ∧
     Ev.log "Error, file is empty" ∈ (UpdateFirmwareFromSD ⟨true, true, 0, true, true, 0⟩ ⟨false, false, some []⟩).events) := by
  refine ⟨rfl, rfl, rfl, ?_⟩
  exact C6_zero_size_aborts ⟨true, true, 0, true, true, 0⟩ ⟨false, false, some []⟩ rfl rfl rfl

/-- C7: on an update-available response (HTTP 200 or 301) with a working
SD card, the Fetch Agent opens `/update.bin` with `FILE_WRITE`
(truncating mode "w"), streams the body through the 1024-byte buffer
loop of lines 141-145, and ends with the staged file holding exactly the
response body, whatever was staged before; every write the loop issues
is a nonempty chunk of at most 1024 bytes. -/
theorem C7_download_writes_exact_body (env : FetchEnv) (s : SysState)
    (hu : s.is_updating = false) (hb : env.httpBeginOk = true)
    (hc : env.httpCode = HTTP_CODE_OK ∨ env.httpCode = HTTP_CODE_MOVED_PERMANENTLY)
    (hm : env.mountOk = true) (ho : env.fileOpenOk = true) :
    (CheckAPIForUpdates env s).state.sdFile = some env.body ∧
    ∀ ch, Ev.fileWrite ch ∈ (CheckAPIForUpdates env s).events →
      ch ≠ [] ∧ ch.length ≤ 1024 := by
  have h208 : ¬ env.httpCode = HTTP_CODE_ALREADY_REPORTED := by
    rcases hc with h | h <;> rw [h] <;> decide
  obtain ⟨d, u, sd⟩ := s
  simp only at hu
  subst hu
  constructor
  · simp [CheckAPIForUpdates, hb, h208, hc, hm, ho, writeChunks_snd]
  · intro ch hmem
    simp [CheckAPIForUpdates, hb, h208, hc, hm, ho] at hmem
    exact writeChunks_chunk_aux env.body.length env.body [] ch le_rfl hmem

/-- Witness for `C7_download_writes_exact_body`: HTTP 200 with a 3-byte
body over a previously staged 1-byte image. -/
theorem C7_download_writes_exact_body_witness :
    (SysState.is_updating ⟨false, false, some [9]⟩ = false) ∧
    (FetchEnv.httpBeginOk ⟨true, 200, [5, 6, 7], true, true⟩ = true) ∧
    ((CheckAPIForUpdates ⟨true, 200, [5, 6, 7], true, true⟩ ⟨false, false, some [9]⟩).state.sdFile
        = some [5, 6, 7] ∧
     ∀ ch, Ev.fileWrite ch ∈
        (CheckAPIForUpdates ⟨true, 200, [5, 6, 7], true, true⟩ ⟨false, false, some [9]⟩).events →
        ch ≠ [] ∧ ch.length ≤ 1024) :=
  ⟨rfl, rfl,
   C7_download_writes_exact_body ⟨true, 200, [5, 6, 7], true, true⟩ ⟨false, false, some [9]⟩
     rfl rfl (Or.inl rfl) rfl rfl⟩

/-- C8: the claim is false as stated.  The Fetch Agent's entry check at
line 108 tests only `is_updating`; `is_downloading` is not consulted.
From a state with `is_downloading == true` and `is_updating == false`,
an update-available poll proceeds normally: it issues the HTTP request
and overwrites the staging slot. -/
theorem C8_counterexample :
    Ev.httpGet ∈ (CheckAPIForUpdates ⟨true, 200, [7], true, true⟩
        ⟨true, false, none⟩).events ∧
    (CheckAPIForUpdates ⟨true, 200, [7], true, true⟩
        ⟨true, false, none⟩).state.sdFile = some [7] := by
  constructor
  · simp [CheckAPIForUpdates, HTTP_CODE_OK, HTTP_CODE_MOVED_PERMANENTLY,
      HTTP_CODE_ALREADY_REPORTED]
  · simp [CheckAPIForUpdates, HTTP_CODE_OK, HTTP_CODE_MOVED_PERMANENTLY,
      HTTP_CODE_ALREADY_REPORTED, writeChunks_snd]

/-- C8 (amended): the Fetch Agent's entry is gated only on the applying
flag: when `is_updating` is true at entry, the run is a no-op — no
network request, no file write, no gate-flag write, and the shared state
is returned unchanged.  The `downloading` flag itself is never checked
at entry (it is only ever written by the Fetch Agent's own task). -/
theorem C8_amended_entry_checks_updating_only (env : FetchEnv) (s : SysState)
    (hu : s.is_updating = true) :
    (CheckAPIForUpdates env s).state = s ∧
    Ev.httpGet ∉ (CheckAPIForUpdates env s).events ∧
    (∀ ch, Ev.fileWrite ch ∉ (CheckAPIForUpdates env s).events) ∧
    (∀ b, Ev.setDownloading b ∉ (CheckAPIForUpdates env s).events) := by
  obtain ⟨d, u, sd⟩ := s
  simp only at hu
  subst hu
  simp [CheckAPIForUpdates]

/-- Witness for `C8_amended_entry_checks_updating_only`: entry attempted
while an apply is active. -/
theorem C8_amended_entry_checks_updating_only_witness :
    (SysState.is_updating ⟨false, true, some [4]⟩ = true) ∧
    ((CheckAPIForUpdates ⟨true, 200, [7], true, true⟩ ⟨false, true, some [4]⟩).state
        = ⟨false, true, some [4]⟩ ∧
     Ev.httpGet ∉ (CheckAPIForUpdates ⟨true, 200, [7], true, true⟩ ⟨false, true, some [4]⟩).events ∧
     (∀ ch, Ev.fileWrite ch ∉
        (CheckAPIForUpdates ⟨true, 200, [7], true, true⟩ ⟨false, true, some [4]⟩).events) ∧
     (∀ b, Ev.setDownloading b ∉
        (CheckAPIForUpdates ⟨true, 200, [7], true, true⟩ ⟨false, true, some [4]⟩).events)) :=
  ⟨rfl, C8_amended_entry_checks_updating_only ⟨true, 200, [7], true, true⟩ ⟨false, true, some [4]⟩ rfl⟩

/-- C9: when the Apply Agent's `SD.begin` at line 67 fails (with entry
not denied, i.e. `is_downloading` clear), the run returns at line 69
with the shared state unchanged: no gate flag is written, no flash
primitive call is made, no restart occurs, and the staged image — if any
— is not removed. -/
theorem C9_mount_failure_is_noop (env : ApplyEnv) (s : SysState)
    (hd : s.is_downloading = false) (hm : env.mountOk = false) :
    (UpdateFirmwareFromSD env s).state = s ∧
    (UpdateFirmwareFromSD env s).restarted = false ∧
    (∀ n, Ev.updateBegin n ∉ (UpdateFirmwareFromSD env s).events) ∧
    Ev.updateEnd ∉ (UpdateFirmwareFromSD env s).events ∧
    Ev.espRestart ∉ (UpdateFirmwareFromSD env s).events ∧
    Ev.sdRemove ∉ (UpdateFirmwareFromSD env s).events ∧
    (∀ b, Ev.setUpdating b ∉ (UpdateFirmwareFromSD env s).events) ∧
    (UpdateFirmwareFromSD env s).state.sdFile = s.sdFile := by
  obtain ⟨d, u, sd⟩ := s
  simp only at hd
  subst hd
  simp [UpdateFirmwareFromSD, hm]

/-- Witness for `C9_mount_failure_is_noop`: mount failure with a staged
image present. -/
theorem C9_mount_failure_is_noop_witness :
    (SysState.is_downloading ⟨false, false, some [1]⟩ = false) ∧
    (ApplyEnv.mountOk ⟨false, true, 1, true, true, 0⟩ = false) ∧
    ((UpdateFirmwareFromSD ⟨false, true, 1, true, true, 0⟩ ⟨false, false, some [1]⟩).state
        = ⟨false, false, some [1]⟩ ∧
     (UpdateFirmwareFromSD ⟨false, true, 1, true, true, 0⟩ ⟨false, false, some [1]⟩).restarted = false ∧
     (∀ n, Ev.updateBegin n ∉
        (UpdateFirmwareFromSD ⟨false, true, 1, true, true, 0⟩ ⟨false, false, some [1]⟩).events) ∧
     Ev.updateEnd ∉ (UpdateFirmwareFromSD ⟨false, true, 1, true, true, 0⟩ ⟨false, false, some [1]⟩).events ∧
     Ev.espRestart ∉ (UpdateFirmwareFromSD ⟨false, true, 1, true, true, 0⟩ ⟨false, false, some [1]⟩).events ∧
     Ev.sdRemove ∉ (UpdateFirmwareFromSD ⟨false, true, 1, true, true, 0⟩ ⟨false, false, some [1]⟩).events ∧
     (∀ b, Ev.setUpdating b ∉
        (UpdateFirmwareFromSD ⟨false, true, 1, true, true, 0⟩ ⟨false, false, some [1]⟩).events) ∧
     (UpdateFirmwareFromSD ⟨false, true, 1, true, true, 0⟩ ⟨false, false, some [1]⟩).state.sdFile
        = some [1]) :=
  ⟨rfl, rfl,
   C9_mount_failure_is_noop ⟨false, true, 1, true, true, 0⟩ ⟨false, false, some [1]⟩ rfl rfl⟩

/-- C10: `is_updating = true` (line 78) executes only after `SD.open`
succeeded: an Apply run that fails to mount storage or finds no staged
image never writes the applying flag, leaving it exactly as it was at
entry — so such runs never block the Fetch Agent's entry check. -/
theorem C10_applying_set_only_after_open (env : ApplyEnv) (s : SysState)
    (hd : s.is_downloading = false)
    (h : env.mountOk = false ∨ s.sdFile = none) :
    (UpdateFirmwareFromSD env s).state.is_updating = s.is_updating ∧
    (∀ b, Ev.setUpdating b ∉ (UpdateFirmwareFromSD env s).events) := by
  obtain ⟨d, u, sd⟩ := s
  simp only at hd
  subst hd
  rcases h with hm | hsd
  · simp [UpdateFirmwareFromSD, hm]
  · simp only at hsd
    subst hsd
    cases hm : env.mountOk <;> simp [UpdateFirmwareFromSD, hm]

/-- Witness for `C10_applying_set_only_after_open`: a healthy SD card
with no staged image. -/
theorem C10_applying_set_only_after_open_witness :
    (SysState.is_downloading ⟨false, false, none⟩ = false) ∧
    (SysState.sdFile ⟨false, false, none⟩ = none) ∧
    ((UpdateFirmwareFromSD ⟨true, true, 1, true, true, 0⟩ ⟨false, false, none⟩).state.is_updating
        = SysState.is_updating ⟨false, false, none⟩ ∧
     (∀ b, Ev.setUpdating b ∉
        (UpdateFirmwareFromSD ⟨true, true, 1, true, true, 0⟩ ⟨false, false, none⟩).events)) :=
  ⟨rfl, rfl,
   C10_applying_set_only_after_open ⟨true, true, 1, true, true, 0⟩ ⟨false, false, none⟩
     rfl (Or.inr rfl)⟩
